import Mathlib

/-!
Verification of the colorspace-thresholding module (`cspaceThreshImg.py`).

The module is embedded shallowly: numpy integer arrays of slider
positions become functions `Fin 6 → ℚ`, numpy rank-1 float arrays of
bounds become `List ℚ`, and the exact rational arithmetic of the
scaling formula is carried out in `ℚ`.  Python exceptions (the two
`KeyError` sites: the label dictionary in `main` and the
`convert_code` dictionary in `__cspaceSwitch`) are modelled with
`Except`.  The external OpenCV primitives (`cv2.cvtColor`,
`cv2.inRange`) are out of scope per the design document and are taken
as function parameters.
-/

/-- Python runtime errors this module can raise.  Both failure sites in
the source are dictionary lookups, so the only error is `KeyError`. -/
inductive PyErr where
  | keyError : PyErr
deriving DecidableEq

/-- A numeric result of the bounds computation as Python sees it: either
a numpy scalar (what indexing a rank-1 array with `[0]` returns, and
what `.tolist()` keeps as a plain float), or a rank-1 array, modelled as
a list of its elements.  The distinction is observable to callers
(`len`, indexing, iteration), so the embedding keeps it. -/
inductive PyVal where
  | scalar : ℚ → PyVal
  | arr : List ℚ → PyVal
deriving DecidableEq

deriving instance DecidableEq for Except

/-- Whether a `PyVal` is an array (a sequence) rather than a scalar. -/
def PyVal.isArr : PyVal → Bool
  | .scalar _ => false
  | .arr _ => true

/-- Images are rectangular pixel grids; pixel contents play no role in
the logic under verification, so rows of pixels of integer channel
values suffice. -/
abbrev Image : Type := List (List (List ℤ))

/-- Binary masks produced by the range test. -/
abbrev Mask : Type := List (List Bool)

/-- OpenCV colorspace-conversion codes (external library constants;
only their identity matters here). -/
inductive ConvCode where
  | bgr2hsv | bgr2hls | bgr2lab | bgr2luv | bgr2ycrcb | bgr2xyz | bgr2gray
deriving DecidableEq

/-- The `convert_code` dictionary of `__cspaceSwitch` (lines 31–39):
maps identifiers 1–7 to conversion codes; any other key is absent and
the subscript lookup raises `KeyError`. -/
def convert_code (cspace : ℤ) : Option ConvCode :=
  if cspace = 1 then some .bgr2hsv
  else if cspace = 2 then some .bgr2hls
  else if cspace = 3 then some .bgr2lab
  else if cspace = 4 then some .bgr2luv
  else if cspace = 5 then some .bgr2ycrcb
  else if cspace = 6 then some .bgr2xyz
  else if cspace = 7 then some .bgr2gray
  else none

/-- Embedding of `__cspaceSwitch(img, cspace)` (lines 8–42): returns
`img` unchanged when `cspace` is `0` (BGR), otherwise applies the
external `cv2.cvtColor` with the code looked up in `convert_code`,
raising `KeyError` when the identifier is not a key of that
dictionary.  (`cspace is 0` in the source is identity comparison, which
coincides with equality on the small integers that occur.) -/
def cspaceSwitch (cvtColor : Image → ConvCode → Image) (img : Image) (cspace : ℤ) :
    Except PyErr Image :=
  if cspace = 0 then .ok img
  else
    match convert_code cspace with
    | some code => .ok (cvtColor img code)
    | none => .error .keyError

/-- The lookup `min_dict.get(cspace, np.array([0, 0, 0]))` of
`__cspaceBounds` (lines 64, 67): `min_dict = {3: np.array([0, 1, 1])}`. -/
def min_dict_get (cspace : ℤ) : List ℚ :=
  if cspace = 3 then [0, 1, 1] else [0, 0, 0]

/-- The lookup `max_dict.get(cspace, np.array([255, 255, 255]))` of
`__cspaceBounds` (lines 65, 68):
`max_dict = {1: np.array([180, 255, 255]), 2: np.array([180, 255, 255])}`. -/
def max_dict_get (cspace : ℤ) : List ℚ :=
  if cspace = 1 then [180, 255, 255]
  else if cspace = 2 then [180, 255, 255]
  else [255, 255, 255]

/-- Elementwise numpy expression `raw * (maxs - mins) / 100 + mins`
(lines 72–73).  numpy `/` is true division, so components are exact
rationals here. -/
def scaleRaw (raw mins maxs : List ℚ) : List ℚ :=
  List.zipWith (· + ·)
    (List.zipWith (fun r d => r * d / 100) raw (List.zipWith (· - ·) maxs mins))
    mins

/-- Embedding of `__cspaceBounds(cspace, slider_pos)` (lines 45–77).
It cannot raise for a six-element slider input: both dictionary
lookups use `.get` with a default, so every integer identifier falls
through to the default range.  For identifier `7` (Grayscale) the two
bound arrays are replaced by their first components, which are numpy
scalars, not arrays. -/
def cspaceBounds (cspace : ℤ) (slider_pos : Fin 6 → ℚ) :
    Except PyErr (PyVal × PyVal) :=
  let mins := min_dict_get cspace
  let maxs := max_dict_get cspace
  let lowerb := scaleRaw [slider_pos 0, slider_pos 2, slider_pos 4] mins maxs
  let upperb := scaleRaw [slider_pos 1, slider_pos 3, slider_pos 5] mins maxs
  if cspace = 7 then .ok (.scalar (lowerb.headD 0), .scalar (upperb.headD 0))
  else .ok (.arr lowerb, .arr upperb)

/-- Embedding of `__cspaceRange(img, cspace, lowerb, upperb)`
(lines 80–99): convert the image, then apply the external
`cv2.inRange` test. -/
def cspaceRange (cvtColor : Image → ConvCode → Image)
    (inRange : Image → PyVal → PyVal → Mask)
    (img : Image) (cspace : ℤ) (lowerb upperb : PyVal) : Except PyErr Mask := do
  let converted ← cspaceSwitch cvtColor img cspace
  return inRange converted lowerb upperb

/-- The `cspace_dict` label dictionary of `main` (lines 133–134); the
subscript lookup on line 135 raises `KeyError` for any other string. -/
def cspace_dict (label : String) : Option ℤ :=
  if label = "BGR" then some 0
  else if label = "HSV" then some 1
  else if label = "HLS" then some 2
  else if label = "Lab" then some 3
  else if label = "Luv" then some 4
  else if label = "YCrCb" then some 5
  else if label = "XYZ" then some 6
  else if label = "Gray" then some 7
  else none

namespace cspaceThreshImg

/-- Embedding of `main(img, cspace_label, slider_pos)` (lines 105–145):
resolve the label (raising `KeyError` before anything is computed when
it is unrecognized), compute bounds, compute the mask, and return the
tuple.  The final `.tolist()` calls keep the array/scalar distinction
(`np.float64.tolist()` is a plain float, an array's is a list), so they
are the identity on `PyVal`. -/
def main (cvtColor : Image → ConvCode → Image)
    (inRange : Image → PyVal → PyVal → Mask)
    (img : Image) (cspace_label : String) (slider_pos : Fin 6 → ℚ) :
    Except PyErr (Mask × String × PyVal × PyVal) := do
  let cspace ← match cspace_dict cspace_label with
    | some c => Except.ok c
    | none => Except.error PyErr.keyError
  let (lowerb, upperb) ← cspaceBounds cspace slider_pos
  let bin_img ← cspaceRange cvtColor inRange img cspace lowerb upperb
  return (bin_img, cspace_label, lowerb, upperb)

end cspaceThreshImg

/-! Definitions taken from the specification's wording, for comparison
with the embedded source. -/

/-- Modelled from the spec (4.2 step 1): the native per-channel
minimums table — Lab uses minimum (0,1,1), every other colorspace
defaults to (0,0,0). -/
def specNativeMin (cspace : ℤ) : List ℚ :=
  if cspace = 3 then [0, 1, 1] else [0, 0, 0]

/-- Modelled from the spec (4.2 step 1): the native per-channel
maximums table — HSV and HLS use maximum (180,255,255), every other
colorspace defaults to (255,255,255). -/
def specNativeMax (cspace : ℤ) : List ℚ :=
  if cspace = 1 ∨ cspace = 2 then [180, 255, 255] else [255, 255, 255]

/-- Modelled from the spec (4.2 step 3): one component of the scaling,
`bound = raw * (max - min) / 100 + min`. -/
def specScaleBound (raw mn mx : ℚ) : ℚ := raw * (mx - mn) / 100 + mn

/-- The scaled lower bound of channel `c` as computed on lines 70 and
72, before the Grayscale collapse of line 75. -/
def lowerbOf (cspace : ℤ) (s : Fin 6 → ℚ) (c : Fin 3) : ℚ :=
  (scaleRaw [s 0, s 2, s 4] (min_dict_get cspace) (max_dict_get cspace)).getD c 0

/-- The scaled upper bound of channel `c` as computed on lines 71 and
73, before the Grayscale collapse of line 75. -/
def upperbOf (cspace : ℤ) (s : Fin 6 → ℚ) (c : Fin 3) : ℚ :=
  (scaleRaw [s 1, s 3, s 5] (min_dict_get cspace) (max_dict_get cspace)).getD c 0

/-- A trivial concrete stand-in for the external `cv2.cvtColor`, used
only to instantiate closed statements. -/
def cvt0 : Image → ConvCode → Image := fun img _ => img

/-- A trivial concrete stand-in for the external `cv2.inRange`, used
only to instantiate closed statements. -/
def ir0 : Image → PyVal → PyVal → Mask := fun _ _ _ => []

/-- Fixed six-slot slider assignments used to instantiate closed
statements (trackbar positions in the source are plain numbers). -/
def slOf {α : Type} (a b c d e f : α) : Fin 6 → α := fun i =>
  match i with
  | ⟨0, _⟩ => a
  | ⟨1, _⟩ => b
  | ⟨2, _⟩ => c
  | ⟨3, _⟩ => d
  | ⟨4, _⟩ => e
  | ⟨5, _⟩ => f

/-- Length observation on a bound value: Python's `len` succeeds only on
the array form (`len` of a numpy scalar raises `TypeError`). -/
def pyLen : PyVal → Option ℕ
  | .scalar _ => none
  | .arr l => some l.length

/-- C5: converting to the BGR colorspace (identifier 0) is the
identity — `__cspaceSwitch` returns the input image unmodified, before
any conversion dispatch is consulted. -/
theorem C5_bgr_identity (cvtColor : Image → ConvCode → Image) (img : Image) :
    cspaceSwitch cvtColor img 0 = .ok img := rfl

/-- C8: for the Grayscale colorspace with sliders `[0, 50, 0, 0, 0, 0]`
the lower bound is the single value `0` and the upper bound the single
value `127.5 = 255/2`, i.e. exactly `50 * 255 / 100` with exact
(non-truncating) division. -/
theorem C8_gray_scenario :
    cspaceBounds 7 (slOf 0 50 0 0 0 0) = .ok (.scalar 0, .scalar (255 / 2)) := by
  norm_num [cspaceBounds, scaleRaw, min_dict_get, max_dict_get, slOf]

/-- C10: for the Grayscale colorspace the bounds depend only on slider
positions 0 and 1 — two slider assignments agreeing there produce
identical bounds, whatever positions 2–5 hold. -/
theorem C10_gray_locality (s t : Fin 6 → ℚ) (h0 : s 0 = t 0) (h1 : s 1 = t 1) :
    cspaceBounds 7 s = cspaceBounds 7 t := by
  simp [cspaceBounds, scaleRaw, min_dict_get, max_dict_get, h0, h1]

/-- Witness for C10 at sliders `[1,2,3,4,5,6]` and `[1,2,9,9,9,9]`,
which differ at positions 2–5. -/
theorem C10_gray_locality_witness :
    slOf (1 : ℚ) 2 3 4 5 6 0 = slOf (1 : ℚ) 2 9 9 9 9 0 ∧
    slOf (1 : ℚ) 2 3 4 5 6 1 = slOf (1 : ℚ) 2 9 9 9 9 1 ∧
    cspaceBounds 7 (slOf 1 2 3 4 5 6) = cspaceBounds 7 (slOf 1 2 9 9 9 9) :=
  ⟨rfl, rfl, C10_gray_locality _ _ rfl rfl⟩

/-- Counterexample to C4: at identifier 8, outside the enumeration,
`__cspaceBounds` raises nothing — both dictionary lookups use `.get`
with a default, so it returns bounds computed from the default
(0,0,0)/(255,255,255) range. -/
theorem C4_cex :
    cspaceBounds 8 (fun _ => 0) = .ok (.arr [0, 0, 0], .arr [0, 0, 0]) := by
  norm_num [cspaceBounds, scaleRaw, min_dict_get, max_dict_get]

/-- C4 amended: for every identifier outside the closed enumeration,
`__cspaceBounds` raises no error and returns bounds scaled on the
default (0,0,0)/(255,255,255) range; the `InvalidColorspace` failure
(a `KeyError`) occurs instead in `__cspaceSwitch`, whose
`convert_code` dictionary has no such key. -/
theorem C4_out_of_enum (cspace : ℤ) (h : cspace < 0 ∨ 7 < cspace) (s : Fin 6 → ℚ) :
    cspaceBounds cspace s =
      .ok (.arr (scaleRaw [s 0, s 2, s 4] [0, 0, 0] [255, 255, 255]),
           .arr (scaleRaw [s 1, s 3, s 5] [0, 0, 0] [255, 255, 255])) ∧
    ∀ cvtColor img, cspaceSwitch cvtColor img cspace = .error .keyError := by
  have h0 : cspace ≠ 0 := by omega
  have h1 : cspace ≠ 1 := by omega
  have h2 : cspace ≠ 2 := by omega
  have h3 : cspace ≠ 3 := by omega
  have h4 : cspace ≠ 4 := by omega
  have h5 : cspace ≠ 5 := by omega
  have h6 : cspace ≠ 6 := by omega
  have h7 : cspace ≠ 7 := by omega
  constructor
  · simp [cspaceBounds, min_dict_get, max_dict_get, h1, h2, h3, h7]
  · intro cvtColor img
    simp [cspaceSwitch, convert_code, h0, h1, h2, h3, h4, h5, h6, h7]

/-- Witness for C4 amended at identifier 8. -/
theorem C4_out_of_enum_witness :
    cspaceBounds 8 (fun _ => 1) = .ok (.arr [51/20, 51/20, 51/20], .arr [51/20, 51/20, 51/20]) ∧
    cspaceSwitch cvt0 [] 8 = .error .keyError := by
  have h := C4_out_of_enum 8 (by norm_num) (fun _ => 1)
  exact ⟨h.1.trans (by norm_num [scaleRaw]), h.2 cvt0 []⟩

/-- C1: for every identifier in the closed enumeration 0–7 and every
six-slot slider assignment, `__cspaceBounds` extracts the raw lower
bounds from slider positions (0,2,4) and the raw upper bounds from
positions (1,3,5), and scales each component as
`raw * (max - min) / 100 + min` with the (min,max) table worded in the
spec: minimum (0,1,1) for Lab (3), maximum (180,255,255) for HSV (1)
and HLS (2), and (0,0,0)/(255,255,255) otherwise.  (For identifier 7
both bounds are additionally collapsed to their first component, as on
line 75.) -/
theorem C1_scaling (cspace : ℤ) (h : 0 ≤ cspace ∧ cspace ≤ 7) (s : Fin 6 → ℚ) :
    cspaceBounds cspace s = .ok (
      if cspace = 7 then
        (PyVal.scalar (specScaleBound (s 0) ((specNativeMin cspace).getD 0 0)
            ((specNativeMax cspace).getD 0 0)),
         PyVal.scalar (specScaleBound (s 1) ((specNativeMin cspace).getD 0 0)
            ((specNativeMax cspace).getD 0 0)))
      else
        (PyVal.arr [specScaleBound (s 0) ((specNativeMin cspace).getD 0 0) ((specNativeMax cspace).getD 0 0),
                    specScaleBound (s 2) ((specNativeMin cspace).getD 1 0) ((specNativeMax cspace).getD 1 0),
                    specScaleBound (s 4) ((specNativeMin cspace).getD 2 0) ((specNativeMax cspace).getD 2 0)],
         PyVal.arr [specScaleBound (s 1) ((specNativeMin cspace).getD 0 0) ((specNativeMax cspace).getD 0 0),
                    specScaleBound (s 3) ((specNativeMin cspace).getD 1 0) ((specNativeMax cspace).getD 1 0),
                    specScaleBound (s 5) ((specNativeMin cspace).getD 2 0) ((specNativeMax cspace).getD 2 0)])) := by
  obtain ⟨h0, h7⟩ := h
  interval_cases cspace <;>
    norm_num [cspaceBounds, scaleRaw, min_dict_get, max_dict_get,
      specNativeMin, specNativeMax, specScaleBound]

/-- Witness for C1 at HSV (identifier 1) with sliders
`[0,100,0,100,0,100]`: the scaled bounds are the native extremes of the
HSV range. -/
theorem C1_scaling_witness :
    cspaceBounds 1 (slOf 0 100 0 100 0 100) = .ok (.arr [0, 0, 0], .arr [180, 255, 255]) := by
  have h := C1_scaling 1 ⟨by norm_num, by norm_num⟩ (slOf 0 100 0 100 0 100)
  exact h.trans (by norm_num [specScaleBound, specNativeMin, specNativeMax, slOf])

/-- Counterexample to C3: for the Grayscale identifier the bounds are
not sequences of length 1 — the code replaces both arrays by their
first component, a scalar, on which `len` is undefined (`pyLen` is
`none`, not `some 1`), and the entry point passes that scalar through
(`np.float64.tolist()` is a plain float, not a list). -/
theorem C3_cex :
    cspaceBounds 7 (fun _ => 0) = .ok (.scalar 0, .scalar 0) ∧
    (cspaceBounds 7 (fun _ => 0)).map (fun p => (pyLen p.1, pyLen p.2)) ≠
      .ok (some 1, some 1) ∧
    cspaceThreshImg.main cvt0 ir0 [] "Gray" (fun _ => 0) =
      .ok ([], "Gray", .scalar 0, .scalar 0) := by
  have hb : cspaceBounds 7 (fun _ => 0) = .ok (.scalar 0, .scalar 0) := by
    norm_num [cspaceBounds, scaleRaw, min_dict_get, max_dict_get]
  refine ⟨hb, by rw [hb]; simp [pyLen, Except.map], ?_⟩
  show (do
      let p ← cspaceBounds 7 (fun _ => 0)
      let m ← cspaceRange cvt0 ir0 [] 7 p.1 p.2
      return (m, "Gray", p.1, p.2) : Except PyErr (Mask × String × PyVal × PyVal)) = _
  rw [hb]
  rfl

/-- C3 amended: the bounds for the Grayscale colorspace are single
scalar values (not sequences), and the entry point returns them as
plain numbers; the bounds for every other colorspace in the enumeration
are sequences of length 3, returned by the entry point as lists of 3
numbers. -/
theorem C3_shapes (cvtColor : Image → ConvCode → Image) (ir : Image → PyVal → PyVal → Mask)
    (img : Image) (cspace : ℤ) (h : 0 ≤ cspace ∧ cspace ≤ 7) (s : Fin 6 → ℚ) :
    (cspaceBounds cspace s).map (fun p => (pyLen p.1, pyLen p.2)) =
      .ok (if cspace = 7 then (none, none) else (some 3, some 3)) ∧
    (cspaceThreshImg.main cvtColor ir img "Gray" s).map
      (fun r => (pyLen r.2.2.1, pyLen r.2.2.2)) = .ok (none, none) ∧
    (cspaceThreshImg.main cvtColor ir img "BGR" s).map
      (fun r => (pyLen r.2.2.1, pyLen r.2.2.2)) = .ok (some 3, some 3) := by
  refine ⟨?_, rfl, rfl⟩
  obtain ⟨h0, h7⟩ := h
  interval_cases cspace <;> rfl

/-- Witness for C3 amended at the Grayscale identifier. -/
theorem C3_shapes_witness :
    (cspaceBounds 7 (fun _ => 2)).map (fun p => (pyLen p.1, pyLen p.2)) = .ok (none, none) ∧
    (cspaceBounds 0 (fun _ => 2)).map (fun p => (pyLen p.1, pyLen p.2)) = .ok (some 3, some 3) := by
  have h7 := C3_shapes cvt0 ir0 [] 7 ⟨by norm_num, by norm_num⟩ (fun _ => 2)
  have h0 := C3_shapes cvt0 ir0 [] 0 ⟨by norm_num, by norm_num⟩ (fun _ => 2)
  exact ⟨h7.1.trans (by norm_num), h0.1.trans (by norm_num)⟩

/-- C9: the labels the public entry point accepts are exactly the eight
strings of the `cspace_dict` dictionary; the string "Grayscale" — the
name the identifier enumeration uses — is not among them, and the entry
point fails with the `KeyError` for it. -/
theorem C9_labels :
    (∀ label : String, (cspace_dict label).isSome = true ↔
        label ∈ (["BGR", "HSV", "HLS", "Lab", "Luv", "YCrCb", "XYZ", "Gray"] : List String)) ∧
    cspace_dict "Grayscale" = none ∧
    (∀ cvtColor ir img s, cspaceThreshImg.main cvtColor ir img "Grayscale" s = .error .keyError) := by
  refine ⟨?_, rfl, fun cvtColor ir img s => rfl⟩
  intro label
  unfold cspace_dict
  split_ifs with h1 h2 h3 h4 h5 h6 h7 h8 <;> simp_all

/-- C2: a label outside the eight recognized names makes the entry
point fail with the `KeyError` of the label lookup (line 135), before
the bounds or the mask are computed, so nothing partial is returned;
every recognized label resolves and no such error is raised. -/
theorem C2_label_gate (cvtColor : Image → ConvCode → Image) (ir : Image → PyVal → PyVal → Mask)
    (img : Image) (s : Fin 6 → ℚ) (label : String) :
    (label ∉ (["BGR", "HSV", "HLS", "Lab", "Luv", "YCrCb", "XYZ", "Gray"] : List String) →
      cspaceThreshImg.main cvtColor ir img label s = .error .keyError) ∧
    (label ∈ (["BGR", "HSV", "HLS", "Lab", "Luv", "YCrCb", "XYZ", "Gray"] : List String) →
      (cspaceThreshImg.main cvtColor ir img label s).isOk = true) := by
  constructor
  · intro hno
    have hd : cspace_dict label = none := by
      unfold cspace_dict
      split_ifs with h1 h2 h3 h4 h5 h6 h7 h8 <;> simp_all
    simp only [cspaceThreshImg.main, hd]
    rfl
  · intro hmem
    simp only [List.mem_cons, List.mem_singleton, List.not_mem_nil, or_false] at hmem
    rcases hmem with rfl | rfl | rfl | rfl | rfl | rfl | rfl | rfl <;> rfl

/-- Witness for C2: "CMYK" is rejected with the `KeyError`; "HSV"
succeeds. -/
theorem C2_label_gate_witness :
    cspaceThreshImg.main cvt0 ir0 [] "CMYK" (fun _ => 0) = .error .keyError ∧
    (cspaceThreshImg.main cvt0 ir0 [] "HSV" (fun _ => 0)).isOk = true :=
  ⟨(C2_label_gate cvt0 ir0 [] (fun _ => 0) "CMYK").1 (by decide),
   (C2_label_gate cvt0 ir0 [] (fun _ => 0) "HSV").2 (by decide)⟩

/-- C6: increasing the "high" slider of channel `c` (slider index
`2c+1`), holding all other sliders fixed, never decreases the scaled
upper bound of that channel, for every identifier in the enumeration. -/
theorem C6_upper_monotone (cspace : ℤ) (h : 0 ≤ cspace ∧ cspace ≤ 7) (s : Fin 6 → ℚ)
    (c : Fin 3) (v1 v2 : ℚ) (hv : v1 ≤ v2) :
    upperbOf cspace (Function.update s ⟨2 * c.val + 1, by omega⟩ v1) c ≤
    upperbOf cspace (Function.update s ⟨2 * c.val + 1, by omega⟩ v2) c := by
  obtain ⟨h0, h7⟩ := h
  fin_cases c <;> interval_cases cspace <;>
    (simp [upperbOf, scaleRaw, min_dict_get, max_dict_get, Function.update, List.getD];
     linarith)

/-- Witness for C6 at HSV (identifier 1), channel 0, raising the high
slider from 20 to 80 over an otherwise all-zero assignment. -/
theorem C6_upper_monotone_witness :
    (20 : ℚ) ≤ 80 ∧
    upperbOf 1 (Function.update (fun _ => (0 : ℚ)) 1 20) 0 ≤
      upperbOf 1 (Function.update (fun _ => (0 : ℚ)) 1 80) 0 := by
  constructor
  · norm_num
  · exact C6_upper_monotone 1 ⟨by norm_num, by norm_num⟩ (fun _ => (0 : ℚ)) 0 20 80 (by norm_num)

/-- `__cspaceBounds` never raises: both range lookups default and the
result is always returned. -/
theorem cspaceBounds_isOk (cspace : ℤ) (s : Fin 6 → ℚ) :
    (cspaceBounds cspace s).isOk = true := by
  by_cases hc : cspace = 7 <;> simp [cspaceBounds, hc, Except.isOk, Except.toBool]

/-- C7: for every identifier in the enumeration and every integer
slider assignment — including values outside [0,100] — `__cspaceBounds`
raises no error and applies no clamping: a high slider above 100 puts
the channel's upper bound strictly above the colorspace's native
maximum, and a low slider below 0 puts the lower bound strictly below
the native minimum; the bounds flow through uncorrected. -/
theorem C7_no_clamp (cspace : ℤ) (h : 0 ≤ cspace ∧ cspace ≤ 7) (s : Fin 6 → ℤ) (c : Fin 3) :
    (cspaceBounds cspace (fun i => (s i : ℚ))).isOk = true ∧
    (100 < s ⟨2 * c.val + 1, by omega⟩ →
      ((specNativeMax cspace).getD c 0 : ℚ) < upperbOf cspace (fun i => (s i : ℚ)) c) ∧
    (s ⟨2 * c.val, by omega⟩ < 0 →
      lowerbOf cspace (fun i => (s i : ℚ)) c < (specNativeMin cspace).getD c 0) := by
  obtain ⟨h0, h7⟩ := h
  refine ⟨cspaceBounds_isOk cspace _, ?_, ?_⟩
  · fin_cases c
    · intro hgt
      replace hgt : (100 : ℚ) < ((s 1 : ℤ) : ℚ) := by exact_mod_cast hgt
      interval_cases cspace <;>
        (norm_num [upperbOf, scaleRaw, min_dict_get, max_dict_get, specNativeMax, List.getD];
         linarith)
    · intro hgt
      replace hgt : (100 : ℚ) < ((s 3 : ℤ) : ℚ) := by exact_mod_cast hgt
      interval_cases cspace <;>
        (norm_num [upperbOf, scaleRaw, min_dict_get, max_dict_get, specNativeMax, List.getD];
         linarith)
    · intro hgt
      replace hgt : (100 : ℚ) < ((s 5 : ℤ) : ℚ) := by exact_mod_cast hgt
      interval_cases cspace <;>
        (norm_num [upperbOf, scaleRaw, min_dict_get, max_dict_get, specNativeMax, List.getD];
         linarith)
  · fin_cases c
    · intro hlt
      replace hlt : ((s 0 : ℤ) : ℚ) < 0 := by exact_mod_cast hlt
      interval_cases cspace <;>
        (norm_num [lowerbOf, scaleRaw, min_dict_get, max_dict_get, specNativeMin, List.getD];
         linarith)
    · intro hlt
      replace hlt : ((s 2 : ℤ) : ℚ) < 0 := by exact_mod_cast hlt
      interval_cases cspace <;>
        (norm_num [lowerbOf, scaleRaw, min_dict_get, max_dict_get, specNativeMin, List.getD];
         linarith)
    · intro hlt
      replace hlt : ((s 4 : ℤ) : ℚ) < 0 := by exact_mod_cast hlt
      interval_cases cspace <;>
        (norm_num [lowerbOf, scaleRaw, min_dict_get, max_dict_get, specNativeMin, List.getD];
         linarith)

/-- Witness for C7 at BGR (identifier 0), channel 0, sliders
`[-5, 200, 0, 0, 0, 0]`: no error, the upper bound exceeds the native
maximum 255, the lower bound is below the native minimum 0. -/
theorem C7_no_clamp_witness :
    (cspaceBounds 0 (fun i => ((slOf (-5 : ℤ) 200 0 0 0 0) i : ℚ))).isOk = true ∧
    (255 : ℚ) < upperbOf 0 (fun i => ((slOf (-5 : ℤ) 200 0 0 0 0) i : ℚ)) 0 ∧
    lowerbOf 0 (fun i => ((slOf (-5 : ℤ) 200 0 0 0 0) i : ℚ)) 0 < 0 := by
  have h := C7_no_clamp 0 ⟨by norm_num, by norm_num⟩ (slOf (-5 : ℤ) 200 0 0 0 0) 0
  refine ⟨h.1, ?_, ?_⟩
  · have h2 := h.2.1 (by decide)
    simpa [specNativeMax, List.getD] using h2
  · have h3 := h.2.2 (by decide)
    simpa [specNativeMin, List.getD] using h3
